import Mathlib

/-!
Verification development for Map Studio (`app.py`), a Streamlit form that
parses user-supplied tabular data (state name, numeric value) and dispatches
a choropleth-map rendering to an external collaborator `render_map`.

The embedding models the de-facto core of the file: the tolerant pasted-text
parser (comma, then tab, then fixed-width fallback), the column-name
normalization, the session-state bookkeeping, and the generation dispatch
around the external call.  Streamlit widget plumbing and the renderer's
internals are out of scope; the renderer appears as an abstract function of
its call contract.  Pandas cell-level dtype inference is not modelled: cells
stay verbatim strings, which is all the claims under study inspect.
-/

namespace MapStudio

/-! ## Character-level models of the Python string primitives -/

/-- Whitespace as Python `str.strip()` sees it, restricted to the characters
that can occur in this app's inputs: tab, newline, vertical tab, form feed,
carriage return, space, and the no-break space U+00A0 (code point 160), which
Python counts as Unicode whitespace.  Characters are compared by code point. -/
def isPyWS (c : Char) : Bool :=
  decide (c.toNat ∈ [9, 10, 11, 12, 13, 32, 160])

/-- The predicate kept by `Series.str.replace(u00A0, "", regex=False)`:
every character other than the no-break space survives. -/
def notNbsp (c : Char) : Bool :=
  decide (c.toNat ≠ 160)

/-- ASCII model of Python `str.lower()` on one character: code points 65-90
(`A`-`Z`) shift by 32 to `a`-`z`; everything else is unchanged.  The app's
data is ASCII apart from the no-break space, which `lower` leaves alone. -/
def pyLowerChar (c : Char) : Char :=
  if 65 ≤ c.toNat ∧ c.toNat ≤ 90 then Char.ofNat (c.toNat + 32) else c

/-- Strip from the front, then from the back: the character-list body of
Python `str.strip()`. -/
def stripList (l : List Char) : List Char :=
  ((l.dropWhile isPyWS).reverse.dropWhile isPyWS).reverse

/-- Python `str.strip()` / pandas `Series.str.strip()`. -/
def pyStrip (s : String) : String :=
  ⟨stripList s.data⟩

/-- Python `str.lower()` / pandas `Series.str.lower()` (ASCII model). -/
def pyLower (s : String) : String :=
  ⟨s.data.map pyLowerChar⟩

/-- Pandas `Series.str.replace(u00A0, "", regex=False)`: delete every
no-break space. -/
def removeNbsp (s : String) : String :=
  ⟨s.data.filter notNbsp⟩

/-- Column post-processing of the paste path, app.py lines 160-166, on one
name: `astype(str)` (the identity here, since the model's column names are
already strings), `.str.strip()`, `.str.lower()`, and
`.str.replace(u00A0, "", regex=False)`. -/
def pasteColName (s : String) : String :=
  removeNbsp (pyLower (pyStrip s))

/-- Column post-processing of the upload path, app.py line 136, on one name:
`.str.strip().str.lower()` — no stringify step and no no-break-space
removal. -/
def uploadColName (s : String) : String :=
  pyLower (pyStrip s)

/-! ## Tables and the pandas parsers -/

/-- A parsed rectangular table: ordered column names and rows of cell
strings.  Pandas dtype inference is not modelled; cells stay verbatim. -/
structure Table where
  columns : List String
  rows : List (List String)
deriving DecidableEq

/-- Failures of the parsing layer.  `emptyData` models pandas
`EmptyDataError` (no columns to parse), `tokenize` the tokenizer's error on a
row with more fields than the header, and `oneColumn` the explicit
`raise ValueError` on a one-column result (app.py lines 150-151, 155-156). -/
inductive ParseErr where
  | emptyData
  | tokenize
  | oneColumn
deriving DecidableEq

/-- Split a character list at every occurrence of the separator, keeping
empty segments, as Python `str.split(sep)` does: `"a,b," ↦ ["a","b",""]`,
`"" ↦ [""]`. -/
def splitOnChar (sep : Char) : List Char → List (List Char)
  | [] => [[]]
  | c :: rest =>
      let r := splitOnChar sep rest
      if c = sep then [] :: r
      else
        match r with
        | [] => [[c]]
        | f :: fs => (c :: f) :: fs

/-- Split one line into fields at the (single-character) separator. -/
def splitFields (sep : Char) (line : List Char) : List String :=
  (splitOnChar sep line).map fun f => ⟨f⟩

/-- Model of `pandas.read_csv(StringIO(text), sep=sep)` as this app uses it
(the app only passes the default `","` and `"\t"`, both one character wide):
split into lines at newline, skip blank lines, take the header from the
first line, split every further line at `sep`; a row with more fields than
the header raises the tokenizer error, a shorter row is padded with empty
cells (pandas fills NaN).  Quoting, index-column inference and `Unnamed:`
header synthesis are outside the model. -/
def read_csv (sep : Char) (text : String) : Except ParseErr Table :=
  match (splitOnChar '\n' text.data).filter (· != []) with
  | [] => .error .emptyData
  | header :: rest =>
      let cols := splitFields sep header
      let rows := rest.map (splitFields sep)
      if rows.any (fun r => decide (cols.length < r.length)) then .error .tokenize
      else .ok ⟨cols, rows.map (fun r => r ++ List.replicate (cols.length - r.length) "")⟩

/-- One `try` block of the paste chain: parse at `sep`, then
`raise ValueError` when the result has exactly one column (app.py lines
148-151 and 153-156). -/
def readAndCheck (sep : Char) (text : String) : Except ParseErr Table :=
  match read_csv sep text with
  | .ok df => if df.columns.length = 1 then .error .oneColumn else .ok df
  | .error e => .error e

/-- The paste-path column post-processing applied to a whole table. -/
def postCols (t : Table) : Table :=
  ⟨t.columns.map pasteColName, t.rows⟩

/-- App.py lines 147-168, the body guarded by `csv_text.strip()`: the nested
try/except chain — comma parse, tab parse, then `pd.read_fwf` — followed by
the column post-processing.  `read_fwf` is the external fixed-width parser;
the app never inspects how it parses, only that it returns a table, so it is
a parameter.  On input with any non-whitespace character `pandas.read_fwf`
always returns a table (it infers at least one column), hence the total
type. -/
def normalize (read_fwf : String → Table) (text : String) : Table :=
  let df :=
    match readAndCheck ',' text with
    | .ok df => df
    | .error _ =>
        match readAndCheck '\t' text with
        | .ok df => df
        | .error _ => read_fwf text
  postCols df

/-- The ordered-fallback strategy written the way the spec (§4.1) words it:
a delimiter attempt succeeds unless the parse fails or its result has exactly
one column, in which case it is treated as a failure. -/
def specAttempt (sep : Char) (text : String) : Option Table :=
  match read_csv sep text with
  | .ok df => if df.columns.length = 1 then none else some df
  | .error _ => none

/-- The spec's chain: first successful attempt wins, the fixed-width parse is
the never-rejected terminal fallback. -/
def specChain (read_fwf : String → Table) (text : String) : Table :=
  match specAttempt ',' text with
  | some df => df
  | none =>
      match specAttempt '\t' text with
      | some df => df
      | none => read_fwf text

/-! ## Session state and the input orchestrator -/

/-- The per-session mutable record: `st.session_state["data_df"]` (the
spec's `current_table`) and `st.session_state["generated_map_path"]` (the
spec's `last_artifact_path`), both initialized absent (app.py lines 57-62). -/
structure SessionState where
  data_df : Option Table
  generated_map_path : Option String
deriving DecidableEq

/-- App.py lines 140-168, the paste branch: `if csv_text.strip():` guards the
whole parse-and-store block, so a whitespace-only paste leaves the state
alone; otherwise the normalized table replaces `data_df` wholesale. -/
def load_pasted (read_fwf : String → Table) (csv_text : String) (s : SessionState) :
    SessionState :=
  if pyStrip csv_text = "" then s
  else { s with data_df := some (normalize read_fwf csv_text) }

/-- App.py lines 134-137, the upload branch: a strict comma parse with no
fallback chain, whose failure propagates to the caller; on success the column
names are stripped and lowercased and the table replaces `data_df`. -/
def load_upload (text : String) (s : SessionState) : Except ParseErr SessionState :=
  match read_csv ',' text with
  | .ok df => .ok { s with data_df := some ⟨df.columns.map uploadColName, df.rows⟩ }
  | .error e => .error e

/-- The embedded sample CSV of `load_sample_data` (app.py lines 47-54). -/
def sample_csv : String :=
  "state,value\nRajasthan,55\nKerala,12\nMaharashtra,34\nUttar Pradesh,67\nTamil Nadu,22\nGujarat,45\nWest Bengal,30"

/-- App.py lines 46-55: parse the embedded sample and store it.  The parse
cannot fail on the fixed text; the error arm totalizes the model. -/
def load_sample_data (s : SessionState) : SessionState :=
  match read_csv ',' sample_csv with
  | .ok df => { s with data_df := some df }
  | .error _ => s

/-- App.py lines 177-194, the grid-editor region: `st.data_editor` displays
the stored table and returns the user's edit as the local `edited_df`;
nothing is written back to `st.session_state["data_df"]`.  Readiness
requires both `state` and `value` among the edited columns.  The result is
(session state after the region, the local `edited_df`, `ready_to_generate`).
The editor widget is abstracted as a function from the displayed table to
the edited table. -/
def editorStep (editor : Table → Table) (s : SessionState) :
    SessionState × Option Table × Bool :=
  match s.data_df with
  | some df =>
      let edited_df := editor df
      (s, some edited_df,
        edited_df.columns.contains "state" && edited_df.columns.contains "value")
  | none => (s, none, false)

/-! ## The generation dispatcher -/

/-- The render configuration bundle built from the sidebar controls and
passed to `render_map` (app.py lines 210-220). -/
structure RenderConfig where
  title_text : String
  source_text : String
  credits_text : String
  value_prefix : String
  value_suffix : String
  palette : String
  annotation_text : String
deriving DecidableEq

/-- Little-endian decimal digits, with explicit fuel so that the definition
reduces structurally; `fuel > n` is always enough. -/
def toDecimalAux (fuel : Nat) (n : Nat) : List Nat :=
  match fuel with
  | 0 => []
  | fuel + 1 => if n < 10 then [n] else n % 10 :: toDecimalAux fuel (n / 10)

/-- Little-endian decimal digits of a natural number. -/
def toDecimal (n : Nat) : List Nat :=
  toDecimalAux (n + 1) n

/-- The character of one decimal digit. -/
def digitChar (d : Nat) : Char :=
  Char.ofNat (48 + d)

/-- Decimal rendering of a natural number, as Python's f-string interpolation
of `int(time.time())` produces it. -/
def pyStrNat (n : Nat) : String :=
  ⟨(toDecimal n).reverse.map digitChar⟩

/-- App.py line 205: `output_dir / f"india_map_{int(time.time())}.png"` with
`output_dir = Path("output")`.  The timestamp is the wall clock truncated to
whole seconds. -/
def outputPathFor (now : Nat) : String :=
  "output/india_map_" ++ pyStrNat now ++ ".png"

/-- The fixed temporary path `output/ui_data.csv` (app.py line 204). -/
def temp_csv : String :=
  "output/ui_data.csv"

/-- The external renderer contract: data file path, configuration, output
path, and the current file system (the set of existing paths); it returns
the file system after its writes, or raises with a message. -/
def Renderer : Type :=
  String → RenderConfig → String → List String → Except String (List String)

/-- The stub installed when `map_renderer` cannot be imported (app.py lines
8-12): `def render_map(**kwargs): pass` — it writes nothing, raises nothing
and returns `None`. -/
def stub_render_map : Renderer :=
  fun _ _ _ fs => .ok fs

/-- Create a path in the file-system model (overwriting changes nothing
observable at the path-existence level). -/
def writeFile (fs : List String) (p : String) : List String :=
  if p ∈ fs then fs else p :: fs

/-- App.py lines 199-226, the Generate button body (readiness was already
checked by the caller): write `edited_df` to the fixed temporary CSV, compute
the timestamped output path, call the renderer with the configuration; on
success store the output path in `generated_map_path` and report success, on
any exception leave the session state as it was and surface the message.
The result is (new session state, file system, user-visible error if any). -/
def generate (render_map : Renderer) (now : Nat) (cfg : RenderConfig)
    (edited_df : Table) (fs : List String) (s : SessionState) :
    SessionState × List String × Option String :=
  let output_path := outputPathFor now
  let fs1 := writeFile fs temp_csv
  match render_map temp_csv cfg output_path fs1 with
  | .ok fs2 => ({ s with generated_map_path := some output_path }, fs2, none)
  | .error e => (s, fs1, some ("Error generating map: " ++ e))

/-- A concrete stand-in for the external fixed-width parser, used to
instantiate universally quantified statements at witnesses. -/
def fwf_const : String → Table :=
  fun _ => ⟨["w"], []⟩

/-! ## The fallback chain -/

/-- Splitting never produces an empty list of fields. -/
theorem splitOnChar_ne_nil (sep : Char) (l : List Char) : splitOnChar sep l ≠ [] := by
  induction l with
  | nil => simp [splitOnChar]
  | cons c rest ih =>
    simp only [splitOnChar]
    split
    · simp
    · cases h : splitOnChar sep rest <;> simp

/-- A successful parse has at least one column. -/
theorem read_csv_cols_pos (sep : Char) (text : String) (df : Table)
    (h : read_csv sep text = .ok df) : 0 < df.columns.length := by
  unfold read_csv at h
  split at h
  · exact absurd h (by simp)
  · dsimp only at h
    split at h
    · exact absurd h (by simp)
    · simp only [Except.ok.injEq] at h
      subst h
      simp only [splitFields, List.length_map]
      cases hs : splitOnChar sep _ with
      | nil => exact absurd hs (splitOnChar_ne_nil _ _)
      | cons a t => simp

/-- Unfolding a successful spec attempt. -/
theorem specAttempt_some (sep : Char) (text : String) (df : Table)
    (h : specAttempt sep text = some df) :
    read_csv sep text = .ok df ∧ df.columns.length ≠ 1 := by
  unfold specAttempt at h
  cases hr : read_csv sep text with
  | ok d =>
      rw [hr] at h
      simp only [] at h
      split at h
      · exact absurd h (by simp)
      · next hlen =>
          simp only [Option.some.injEq] at h
          subst h
          exact ⟨rfl, hlen⟩
  | error e =>
      rw [hr] at h
      exact absurd h (by simp)

/-- The exception-driven `try` block succeeds exactly when the spec's
attempt does. -/
theorem readAndCheck_ok_iff (sep : Char) (text : String) (df : Table) :
    readAndCheck sep text = .ok df ↔ specAttempt sep text = some df := by
  unfold readAndCheck specAttempt
  cases h : read_csv sep text with
  | ok d => by_cases h1 : d.columns.length = 1 <;> simp [h1]
  | error e => simp

/-- The exception-driven `try` block fails exactly when the spec's attempt
does. -/
theorem readAndCheck_error_iff (sep : Char) (text : String) :
    (∃ e, readAndCheck sep text = .error e) ↔ specAttempt sep text = none := by
  unfold readAndCheck specAttempt
  cases h : read_csv sep text with
  | ok d => by_cases h1 : d.columns.length = 1 <;> simp [h1]
  | error e => simp

/-- C1: for every non-whitespace pasted text, `normalize` realizes the
spec's ordered fallback chain: a comma-delimited attempt whose one-column
result counts as failure, then a tab-delimited attempt under the same rule,
then the fixed-width parse, the first success determining the table (up to
the column post-processing applied to every outcome). -/
theorem c1_fallback_chain (read_fwf : String → Table) (text : String)
    (h : pyStrip text ≠ "") :
    normalize read_fwf text = postCols (specChain read_fwf text) := by
  clear h
  unfold normalize specChain
  cases h1 : readAndCheck ',' text with
  | ok df => rw [(readAndCheck_ok_iff ',' text df).mp h1]
  | error e =>
    rw [(readAndCheck_error_iff ',' text).mp ⟨e, h1⟩]
    cases h2 : readAndCheck '\t' text with
    | ok df => rw [(readAndCheck_ok_iff '\t' text df).mp h2]
    | error e2 => rw [(readAndCheck_error_iff '\t' text).mp ⟨e2, h2⟩]

/-- Witness for C1 on a concrete tab-separated paste. -/
theorem c1_fallback_chain_witness :
    pyStrip "state\tvalue\nKerala\t12" ≠ "" ∧
      normalize fwf_const "state\tvalue\nKerala\t12" =
        postCols (specChain fwf_const "state\tvalue\nKerala\t12") :=
  ⟨by decide, c1_fallback_chain fwf_const "state\tvalue\nKerala\t12" (by decide)⟩

/-- C5: when neither delimiter strategy yields more than one column, the
chain ends at the fixed-width parse and no error escapes: `normalize`
returns the post-processed fixed-width result. -/
theorem c5_fixed_width_terminal (read_fwf : String → Table) (text : String)
    (hws : pyStrip text ≠ "")
    (hc : ∀ df, read_csv ',' text = .ok df → ¬ 1 < df.columns.length)
    (ht : ∀ df, read_csv '\t' text = .ok df → ¬ 1 < df.columns.length) :
    normalize read_fwf text = postCols (read_fwf text) := by
  clear hws
  unfold normalize
  have h1 : ∀ df, readAndCheck ',' text ≠ .ok df := by
    intro df hok
    obtain ⟨hr, hlen⟩ := specAttempt_some ',' text df ((readAndCheck_ok_iff ',' text df).mp hok)
    have := read_csv_cols_pos ',' text df hr
    exact absurd (by omega : 1 < df.columns.length) (hc df hr)
  have h2 : ∀ df, readAndCheck '\t' text ≠ .ok df := by
    intro df hok
    obtain ⟨hr, hlen⟩ := specAttempt_some '\t' text df ((readAndCheck_ok_iff '\t' text df).mp hok)
    have := read_csv_cols_pos '\t' text df hr
    exact absurd (by omega : 1 < df.columns.length) (ht df hr)
  cases hx : readAndCheck ',' text with
  | ok df => exact absurd hx (h1 df)
  | error e =>
    cases hy : readAndCheck '\t' text with
    | ok df => exact absurd hy (h2 df)
    | error e2 => rfl

/-- Witness for C5 on a single garbled word. -/
theorem c5_fixed_width_terminal_witness :
    pyStrip "hello" ≠ "" ∧
      normalize fwf_const "hello" = postCols (fwf_const "hello") :=
  ⟨by decide,
    c5_fixed_width_terminal fwf_const "hello" (by decide)
      (by intro df hdf; rw [show read_csv ',' "hello" = .ok ⟨["hello"], []⟩ from rfl] at hdf
          cases hdf; decide)
      (by intro df hdf; rw [show read_csv '\t' "hello" = .ok ⟨["hello"], []⟩ from rfl] at hdf
          cases hdf; decide)⟩

/-- C6: a comma parse with more than one column wins the chain, and
`normalize` returns exactly that table with post-processed column names;
concretely, `"state,value\nKerala,12\nGujarat,45"` yields columns
`state`, `value` and the two rows verbatim. -/
theorem c6_comma_first (read_fwf : String → Table) (text : String) (df : Table)
    (hok : read_csv ',' text = .ok df) (hlen : 1 < df.columns.length) :
    normalize read_fwf text = postCols df ∧
      normalize read_fwf "state,value\nKerala,12\nGujarat,45" =
        ⟨["state", "value"], [["Kerala", "12"], ["Gujarat", "45"]]⟩ := by
  constructor
  · unfold normalize
    have h1 : readAndCheck ',' text = .ok df := by
      unfold readAndCheck
      rw [hok]
      simp only []
      rw [if_neg (by omega)]
    rw [h1]
  · rfl

/-- Witness for C6 at the concrete input named by the claim. -/
theorem c6_comma_first_witness :
    read_csv ',' "state,value\nKerala,12\nGujarat,45" =
        .ok ⟨["state", "value"], [["Kerala", "12"], ["Gujarat", "45"]]⟩ ∧
      normalize fwf_const "state,value\nKerala,12\nGujarat,45" =
        postCols ⟨["state", "value"], [["Kerala", "12"], ["Gujarat", "45"]]⟩ :=
  ⟨rfl,
    (c6_comma_first fwf_const "state,value\nKerala,12\nGujarat,45"
        ⟨["state", "value"], [["Kerala", "12"], ["Gujarat", "45"]]⟩ rfl (by decide)).1⟩

/-! ## The dispatcher: success and failure -/

/-- C2: the generation dispatch is all-or-nothing.  If the renderer raises,
the whole session state (in particular `generated_map_path`) is left exactly
as it was and an error message is surfaced; if the renderer returns
normally, the computed timestamped output path becomes the new
`generated_map_path`, no error is surfaced, and the table state is
untouched. -/
theorem c2_all_or_nothing (render_map : Renderer) (now : Nat) (cfg : RenderConfig)
    (edited_df : Table) (fs : List String) (s : SessionState) :
    (∀ e, render_map temp_csv cfg (outputPathFor now) (writeFile fs temp_csv) = .error e →
      (generate render_map now cfg edited_df fs s).1 = s ∧
        (generate render_map now cfg edited_df fs s).2.2 = some ("Error generating map: " ++ e)) ∧
    (∀ fs2, render_map temp_csv cfg (outputPathFor now) (writeFile fs temp_csv) = .ok fs2 →
      (generate render_map now cfg edited_df fs s).1 =
          { s with generated_map_path := some (outputPathFor now) } ∧
        (generate render_map now cfg edited_df fs s).2.2 = none) := by
  constructor
  · intro e he
    unfold generate
    dsimp only
    rw [he]
    exact ⟨rfl, rfl⟩
  · intro fs2 hok
    unfold generate
    dsimp only
    rw [hok]
    exact ⟨rfl, rfl⟩

/-- Witness for C2: a renderer that always raises leaves the state alone and
surfaces the message; the no-op stub sets the path. -/
theorem c2_all_or_nothing_witness :
    ((generate (fun _ _ _ _ => .error "boom") 7 ⟨"", "", "", "", "", "Blues", ""⟩
          ⟨["state", "value"], [["Kerala", "12"]]⟩ [] ⟨none, none⟩).1 = ⟨none, none⟩ ∧
      (generate (fun _ _ _ _ => .error "boom") 7 ⟨"", "", "", "", "", "Blues", ""⟩
          ⟨["state", "value"], [["Kerala", "12"]]⟩ [] ⟨none, none⟩).2.2 =
        some ("Error generating map: " ++ "boom")) ∧
    (generate stub_render_map 7 ⟨"", "", "", "", "", "Blues", ""⟩
          ⟨["state", "value"], [["Kerala", "12"]]⟩ [] ⟨none, none⟩).1 =
      ⟨none, some (outputPathFor 7)⟩ :=
  ⟨(c2_all_or_nothing (fun _ _ _ _ => .error "boom") 7 ⟨"", "", "", "", "", "Blues", ""⟩
      ⟨["state", "value"], [["Kerala", "12"]]⟩ [] ⟨none, none⟩).1 "boom" rfl,
    ((c2_all_or_nothing stub_render_map 7 ⟨"", "", "", "", "", "Blues", ""⟩
      ⟨["state", "value"], [["Kerala", "12"]]⟩ [] ⟨none, none⟩).2 (writeFile [] temp_csv) rfl).1⟩

/-- C7: a paste that is empty or whitespace-only is a no-op — the whole
session state, in particular `data_df`, is unchanged and no parse runs. -/
theorem c7_blank_paste_noop (read_fwf : String → Table) (csv_text : String)
    (s : SessionState) (h : pyStrip csv_text = "") :
    load_pasted read_fwf csv_text s = s := by
  unfold load_pasted
  rw [if_pos h]

/-- Witness for C7 at the empty and the all-blank paste. -/
theorem c7_blank_paste_noop_witness :
    load_pasted fwf_const "" ⟨some ⟨["state"], []⟩, some "p"⟩ = ⟨some ⟨["state"], []⟩, some "p"⟩ ∧
      load_pasted fwf_const "   " ⟨some ⟨["state"], []⟩, some "p"⟩ =
        ⟨some ⟨["state"], []⟩, some "p"⟩ :=
  ⟨c7_blank_paste_noop fwf_const "" ⟨some ⟨["state"], []⟩, some "p"⟩ (by decide),
    c7_blank_paste_noop fwf_const "   " ⟨some ⟨["state"], []⟩, some "p"⟩ (by decide)⟩

/-- The output path and the fixed temporary path never coincide (they differ
at the character after `output/`). -/
theorem outputPathFor_ne_temp (now : Nat) : outputPathFor now ≠ temp_csv := by
  intro h
  have h7 : (outputPathFor now).data[7]? = temp_csv.data[7]? := by rw [h]
  have hleft : (outputPathFor now).data[7]? = some 'i' := rfl
  rw [hleft] at h7
  exact absurd h7 (by decide)

/-- C10: under the import-failure stub (`def render_map(**kwargs): pass`)
every generate action takes the success branch: `generated_map_path` is set
to the computed output path, success is reported (no error message), and —
since the stub writes nothing — no file exists at that path afterwards
whenever none existed before. -/
theorem c10_stub_reports_success (now : Nat) (cfg : RenderConfig) (edited_df : Table)
    (fs : List String) (s : SessionState) :
    (generate stub_render_map now cfg edited_df fs s).1 =
        { s with generated_map_path := some (outputPathFor now) } ∧
      (generate stub_render_map now cfg edited_df fs s).2.2 = none ∧
      (outputPathFor now ∉ fs →
        outputPathFor now ∉ (generate stub_render_map now cfg edited_df fs s).2.1) := by
  refine ⟨rfl, rfl, ?_⟩
  intro hnotin
  unfold generate stub_render_map
  simp only [writeFile]
  split
  · exact hnotin
  · intro hmem
    cases List.mem_cons.mp hmem with
    | inl heq => exact outputPathFor_ne_temp now heq
    | inr hmem2 => exact hnotin hmem2

/-- Witness for C10 on an initially empty file system. -/
theorem c10_stub_reports_success_witness :
    (generate stub_render_map 7 ⟨"", "", "", "", "", "Blues", ""⟩
        ⟨["state", "value"], [["Kerala", "12"]]⟩ [] ⟨none, none⟩).1 =
      ⟨none, some (outputPathFor 7)⟩ ∧
    outputPathFor 7 ∉ (generate stub_render_map 7 ⟨"", "", "", "", "", "Blues", ""⟩
        ⟨["state", "value"], [["Kerala", "12"]]⟩ [] ⟨none, none⟩).2.1 :=
  ⟨(c10_stub_reports_success 7 ⟨"", "", "", "", "", "Blues", ""⟩
      ⟨["state", "value"], [["Kerala", "12"]]⟩ [] ⟨none, none⟩).1,
    (c10_stub_reports_success 7 ⟨"", "", "", "", "", "Blues", ""⟩
      ⟨["state", "value"], [["Kerala", "12"]]⟩ [] ⟨none, none⟩).2.2
      (by intro h; exact absurd h (List.not_mem_nil _))⟩

/-! ## Distinctness of timestamped output paths -/

/-- Decode little-endian decimal digits. -/
def fromDecimal (l : List Nat) : Nat :=
  l.foldr (fun d acc => d + 10 * acc) 0

/-- With enough fuel the digit expansion round-trips. -/
theorem fromDecimal_toDecimalAux (fuel : Nat) :
    ∀ n, n < fuel → fromDecimal (toDecimalAux fuel n) = n := by
  induction fuel with
  | zero => intro n hn; omega
  | succ fuel ih =>
    intro n hn
    unfold toDecimalAux
    split
    · simp [fromDecimal]
    · next h10 =>
        have hdiv : n / 10 < n := Nat.div_lt_self (by omega) (by omega)
        have : fromDecimal (toDecimalAux fuel (n / 10)) = n / 10 := ih (n / 10) (by omega)
        simp only [fromDecimal, List.foldr_cons] at this ⊢
        rw [this]
        omega

/-- The digit expansion round-trips. -/
theorem fromDecimal_toDecimal (n : Nat) : fromDecimal (toDecimal n) = n :=
  fromDecimal_toDecimalAux (n + 1) n (by omega)

/-- Every produced digit is below ten. -/
theorem toDecimalAux_lt (fuel : Nat) :
    ∀ n d, d ∈ toDecimalAux fuel n → d < 10 := by
  induction fuel with
  | zero => intro n d hd; simp [toDecimalAux] at hd
  | succ fuel ih =>
    intro n d hd
    unfold toDecimalAux at hd
    split at hd
    · next h10 => simp at hd; omega
    · rcases List.mem_cons.mp hd with h | h
      · subst h; exact Nat.mod_lt _ (by omega)
      · exact ih (n / 10) d h

/-- The code point of a digit character recovers the digit. -/
theorem digitChar_toNat (d : Nat) (hd : d < 10) : (digitChar d).toNat = 48 + d := by
  unfold digitChar
  interval_cases d <;> decide

/-- Distinct numbers render to distinct digit strings. -/
theorem pyStrNat_injective (n1 n2 : Nat) (h : pyStrNat n1 = pyStrNat n2) : n1 = n2 := by
  have hdata : ((toDecimal n1).reverse.map digitChar) = ((toDecimal n2).reverse.map digitChar) :=
    congrArg String.data h
  have hdec : ∀ m : Nat, ((toDecimal m).reverse.map digitChar).map (fun c => c.toNat - 48)
      = (toDecimal m).reverse := by
    intro m
    rw [List.map_map]
    have : ∀ d ∈ (toDecimal m).reverse, ((fun c => c.toNat - 48) ∘ digitChar) d = id d := by
      intro d hd
      have hd10 : d < 10 := toDecimalAux_lt (m + 1) m d (List.mem_reverse.mp hd)
      simp [Function.comp, digitChar_toNat d hd10]
    rw [List.map_congr_left this, List.map_id]
  have hrev : (toDecimal n1).reverse = (toDecimal n2).reverse := by
    rw [← hdec n1, ← hdec n2, hdata]
  have hdig : toDecimal n1 = toDecimal n2 := List.reverse_injective hrev
  calc n1 = fromDecimal (toDecimal n1) := (fromDecimal_toDecimal n1).symm
    _ = fromDecimal (toDecimal n2) := by rw [hdig]
    _ = n2 := fromDecimal_toDecimal n2

/-- C8: generation timestamps at least one second apart produce distinct
artifact paths, each of the form `output/india_map_<seconds>.png` built from
the integer-second timestamp. -/
theorem c8_distinct_paths (t1 t2 : Nat) (h : t1 + 1 ≤ t2) :
    outputPathFor t1 ≠ outputPathFor t2 ∧
      outputPathFor t1 = "output/india_map_" ++ pyStrNat t1 ++ ".png" ∧
      outputPathFor t2 = "output/india_map_" ++ pyStrNat t2 ++ ".png" := by
  refine ⟨?_, rfl, rfl⟩
  intro heq
  have hdata := congrArg String.data heq
  unfold outputPathFor at hdata
  rw [String.data_append, String.data_append, String.data_append, String.data_append] at hdata
  have h1 := List.append_cancel_right hdata
  have h2 := List.append_cancel_left h1
  have : pyStrNat t1 = pyStrNat t2 := congrArg String.mk h2
  have := pyStrNat_injective t1 t2 this
  omega

/-- Witness for C8 one second apart. -/
theorem c8_distinct_paths_witness :
    outputPathFor 1712345678 ≠ outputPathFor 1712345679 ∧
      outputPathFor 1712345678 = "output/india_map_1712345678.png" :=
  ⟨(c8_distinct_paths 1712345678 1712345679 (by omega)).1, rfl⟩

/-! ## Facts about the character maps -/

/-- The code point after lowering. -/
theorem toNat_pyLowerChar (c : Char) :
    (pyLowerChar c).toNat =
      if 65 ≤ c.toNat ∧ c.toNat ≤ 90 then c.toNat + 32 else c.toNat := by
  unfold pyLowerChar
  split
  · next h =>
      obtain ⟨h1, h2⟩ := h
      generalize c.toNat = n at h1 h2 ⊢
      interval_cases n <;> decide
  · rfl

/-- Lowering a character outside `A`-`Z` is the identity. -/
theorem pyLowerChar_eq_self (c : Char) (h : ¬ (65 ≤ c.toNat ∧ c.toNat ≤ 90)) :
    pyLowerChar c = c := by
  unfold pyLowerChar
  rw [if_neg h]

/-- Lowering never creates or destroys a no-break space. -/
theorem notNbsp_pyLowerChar (c : Char) : notNbsp (pyLowerChar c) = notNbsp c := by
  unfold notNbsp
  rw [toNat_pyLowerChar, decide_eq_decide]
  by_cases hc : 65 ≤ c.toNat ∧ c.toNat ≤ 90
  · rw [if_pos hc]; omega
  · rw [if_neg hc]

/-- Lowering never creates or destroys whitespace. -/
theorem isPyWS_pyLowerChar (c : Char) : isPyWS (pyLowerChar c) = isPyWS c := by
  unfold isPyWS
  rw [toNat_pyLowerChar, decide_eq_decide]
  simp only [List.mem_cons, List.not_mem_nil, or_false]
  by_cases hc : 65 ≤ c.toNat ∧ c.toNat ≤ 90
  · rw [if_pos hc]; omega
  · rw [if_neg hc]

/-- Lowering is idempotent. -/
theorem pyLowerChar_idem (c : Char) : pyLowerChar (pyLowerChar c) = pyLowerChar c := by
  apply pyLowerChar_eq_self
  rw [toNat_pyLowerChar]
  by_cases hc : 65 ≤ c.toNat ∧ c.toNat ≤ 90
  · rw [if_pos hc]; omega
  · rw [if_neg hc]; exact hc

/-- Stripping only removes characters. -/
theorem mem_of_mem_stripList (a : Char) (l : List Char) (h : a ∈ stripList l) : a ∈ l := by
  unfold stripList at h
  rw [List.mem_reverse] at h
  have h2 := (List.dropWhile_sublist isPyWS).mem h
  rw [List.mem_reverse] at h2
  exact (List.dropWhile_sublist isPyWS).mem h2

/-! ## Upload-path versus paste-path column normalization -/

/-- On a name free of no-break spaces the upload normalization agrees with
the paste normalization. -/
theorem uploadColName_eq_pasteColName (name : String) (h : name.data.all notNbsp) :
    uploadColName name = pasteColName name := by
  unfold uploadColName pasteColName
  have : removeNbsp (pyLower (pyStrip name)) = pyLower (pyStrip name) := by
    unfold removeNbsp
    have hall : ∀ a ∈ (pyLower (pyStrip name)).data, notNbsp a = true := by
      intro a ha
      unfold pyLower pyStrip at ha
      simp only [List.mem_map] at ha
      obtain ⟨b, hb, hba⟩ := ha
      have hbmem : b ∈ name.data := mem_of_mem_stripList b name.data hb
      have := List.all_eq_true.mp h b hbmem
      rw [← hba, notNbsp_pyLowerChar]
      exact this
    have := List.filter_eq_self.mpr hall
    rw [this]
  rw [this]

/-- C3 counterexample: on a header containing an interior no-break space the
upload path and the paste post-processing disagree — upload keeps the
no-break space, paste removes it. -/
theorem c3_counterexample :
    load_upload "sta\u00A0te,value\nKerala,12" ⟨none, none⟩ =
        .ok ⟨some ⟨["sta\u00A0te", "value"], [["Kerala", "12"]]⟩, none⟩ ∧
      pasteColName "sta\u00A0te" = "state" ∧
      uploadColName "sta\u00A0te" = "sta\u00A0te" ∧
      ["sta\u00A0te", "value"].map uploadColName ≠ ["sta\u00A0te", "value"].map pasteColName := by
  refine ⟨rfl, by decide, by decide, by decide⟩

/-- C3 amended: `load_upload` normalizes the parsed column names by
stripping and lowercasing only; this agrees with the paste path's
post-processing exactly on names free of no-break spaces, and the no-break
space removal step is absent from the upload path. -/
theorem c3_amended (text : String) (s : SessionState) (df : Table)
    (h : read_csv ',' text = .ok df) :
    load_upload text s = .ok { s with data_df := some ⟨df.columns.map uploadColName, df.rows⟩ } ∧
      ∀ name : String, name.data.all notNbsp → uploadColName name = pasteColName name := by
  constructor
  · unfold load_upload
    rw [h]
  · exact fun name hn => uploadColName_eq_pasteColName name hn

/-- Witness for the amended C3 on a concrete nbsp-free upload. -/
theorem c3_amended_witness :
    load_upload " State ,Value\nKerala,12" ⟨none, none⟩ =
        .ok ⟨some ⟨["state", "value"], [["Kerala", "12"]]⟩, none⟩ ∧
      uploadColName " State " = pasteColName " State " :=
  ⟨by
    have := (c3_amended " State ,Value\nKerala,12" ⟨none, none⟩
        ⟨[" State ", "Value"], [["Kerala", "12"]]⟩ rfl).1
    rw [this]
    rfl,
    (c3_amended " State ,Value\nKerala,12" ⟨none, none⟩
        ⟨[" State ", "Value"], [["Kerala", "12"]]⟩ rfl).2 " State " (by decide)⟩

/-! ## What replaces the current table, and what does not -/

/-- C4 counterexample: a grid edit does not replace `current_table`.  The
editor region returns the edited table separately while
`session_state["data_df"]` still holds the pre-edit table. -/
theorem c4_counterexample :
    (editorStep (fun _ => ⟨["state", "value"], [["Kerala", "99"]]⟩)
        ⟨some ⟨["state", "value"], [["Kerala", "12"]]⟩, none⟩).2.1 =
      some ⟨["state", "value"], [["Kerala", "99"]]⟩ ∧
    (editorStep (fun _ => ⟨["state", "value"], [["Kerala", "99"]]⟩)
        ⟨some ⟨["state", "value"], [["Kerala", "12"]]⟩, none⟩).1.data_df =
      some ⟨["state", "value"], [["Kerala", "12"]]⟩ ∧
    (⟨["state", "value"], [["Kerala", "12"]]⟩ : Table) ≠
      ⟨["state", "value"], [["Kerala", "99"]]⟩ :=
  ⟨rfl, rfl, by decide⟩

/-- C4 amended: each successful input action (paste, upload, sample)
replaces `current_table` wholesale, ignoring prior contents; a grid edit
leaves the session state untouched — the edited table is only returned for
readiness checking and generation. -/
theorem c4_amended (read_fwf : String → Table) (text : String) (s : SessionState)
    (editor : Table → Table) (h : pyStrip text ≠ "") :
    (load_pasted read_fwf text s).data_df = some (normalize read_fwf text) ∧
      (∀ s2, load_upload text s = .ok s2 →
        ∃ df, read_csv ',' text = .ok df ∧
          s2.data_df = some ⟨df.columns.map uploadColName, df.rows⟩) ∧
      (load_sample_data s).data_df =
        some ⟨["state", "value"],
          [["Rajasthan", "55"], ["Kerala", "12"], ["Maharashtra", "34"],
            ["Uttar Pradesh", "67"], ["Tamil Nadu", "22"], ["Gujarat", "45"],
            ["West Bengal", "30"]]⟩ ∧
      (editorStep editor s).1 = s ∧
      (∀ df, s.data_df = some df → (editorStep editor s).2.1 = some (editor df)) := by
  refine ⟨?_, ?_, rfl, ?_, ?_⟩
  · unfold load_pasted
    rw [if_neg h]
  · intro s2 h2
    unfold load_upload at h2
    cases hr : read_csv ',' text with
    | ok df =>
        rw [hr] at h2
        simp only [Except.ok.injEq] at h2
        exact ⟨df, rfl, by rw [← h2]⟩
    | error e =>
        rw [hr] at h2
        exact absurd h2 (by simp)
  · unfold editorStep
    cases s.data_df <;> rfl
  · intro df hdf
    unfold editorStep
    rw [hdf]

/-- Witness for the amended C4 on concrete state, paste text and edit. -/
theorem c4_amended_witness :
    pyStrip "a,b\n1,2" ≠ "" ∧
      (load_pasted fwf_const "a,b\n1,2" ⟨some ⟨["x"], []⟩, some "p"⟩).data_df =
        some (normalize fwf_const "a,b\n1,2") ∧
      (editorStep (fun t => t) ⟨some ⟨["x"], []⟩, some "p"⟩).1 = ⟨some ⟨["x"], []⟩, some "p"⟩ :=
  ⟨by decide,
    (c4_amended fwf_const "a,b\n1,2" ⟨some ⟨["x"], []⟩, some "p"⟩ (fun t => t) (by decide)).1,
    (c4_amended fwf_const "a,b\n1,2" ⟨some ⟨["x"], []⟩, some "p"⟩ (fun t => t) (by decide)).2.2.2.1⟩

/-! ## Idempotence of the column-name normalization -/

/-- A non-whitespace character is not a no-break space. -/
theorem notNbsp_of_not_isPyWS (c : Char) (h : isPyWS c = false) : notNbsp c = true := by
  unfold isPyWS at h
  unfold notNbsp
  simp only [List.mem_cons, List.not_mem_nil, or_false, decide_eq_false_iff_not] at h
  simp only [decide_eq_true_eq]
  omega

/-- Nothing is dropped when the head does not satisfy the predicate. -/
theorem dropWhile_eq_self_of_head (p : Char → Bool) (l : List Char)
    (h : ∀ a, l.head? = some a → p a = false) : l.dropWhile p = l := by
  cases l with
  | nil => rfl
  | cons c t =>
      rw [List.dropWhile_cons, if_neg]
      simp [h c rfl]

/-- The head surviving `dropWhile` fails the predicate. -/
theorem head?_dropWhile_false (p : Char → Bool) (l : List Char) (a : Char)
    (h : (l.dropWhile p).head? = some a) : p a = false := by
  induction l with
  | nil => simp [List.dropWhile_nil] at h
  | cons c t ih =>
      rw [List.dropWhile_cons] at h
      by_cases hc : p c = true
      · rw [if_pos hc] at h
        exact ih h
      · rw [if_neg hc] at h
        rw [List.head?_cons, Option.some.injEq] at h
        subst h
        simp at hc
        exact hc

/-- Dropping is idempotent. -/
theorem dropWhile_dropWhile (p : Char → Bool) (l : List Char) :
    (l.dropWhile p).dropWhile p = l.dropWhile p :=
  dropWhile_eq_self_of_head p (l.dropWhile p) (head?_dropWhile_false p l)

/-- Dropping a prefix does not change a nonempty remainder's last element. -/
theorem getLast?_dropWhile (p : Char → Bool) (l : List Char)
    (h : l.dropWhile p ≠ []) : (l.dropWhile p).getLast? = l.getLast? := by
  induction l with
  | nil => exact absurd rfl h
  | cons c t ih =>
      rw [List.dropWhile_cons]
      by_cases hc : p c = true
      · rw [List.dropWhile_cons, if_pos hc] at h
        rw [if_pos hc]
        cases ht : t with
        | nil => rw [ht] at h; exact absurd rfl h
        | cons b t2 =>
            rw [List.getLast?_cons_cons, ← ht]
            exact ih (ht ▸ h)
      · rw [if_neg hc]

/-- Filtering preserves a harmless head: if the head of `x` is known to be
non-whitespace, the head of the filtered list still is. -/
theorem head?_filter_false (x : List Char) (a : Char)
    (hx : ∀ b, x.head? = some b → isPyWS b = false)
    (h : (x.filter notNbsp).head? = some a) : isPyWS a = false := by
  cases x with
  | nil => simp [List.filter_nil] at h
  | cons c t =>
      have hc : isPyWS c = false := hx c rfl
      rw [List.filter_cons_of_pos (notNbsp_of_not_isPyWS c hc)] at h
      rw [List.head?_cons, Option.some.injEq] at h
      subst h
      exact hc

/-- Every element surviving the strip came from the list, and the head and
last survivors are non-whitespace: head version. -/
theorem head?_stripList_false (l : List Char) (a : Char)
    (h : (stripList l).head? = some a) : isPyWS a = false := by
  unfold stripList at h
  rw [List.head?_reverse] at h
  set m := (l.dropWhile isPyWS).reverse.dropWhile isPyWS with hm
  by_cases hne : m = []
  · rw [hne] at h
    simp at h
  · rw [hm, getLast?_dropWhile isPyWS _ (hm ▸ hne), List.getLast?_reverse] at h
    exact head?_dropWhile_false isPyWS l a h

/-- The reverse of the strip also starts with a non-whitespace character. -/
theorem head?_stripList_reverse_false (l : List Char) (a : Char)
    (h : (stripList l).reverse.head? = some a) : isPyWS a = false := by
  unfold stripList at h
  rw [List.reverse_reverse] at h
  exact head?_dropWhile_false isPyWS _ a h

/-- Stripping fixes the result of filtering a stripped list. -/
theorem stripList_filter_stripList (l : List Char) :
    stripList ((stripList l).filter notNbsp) = (stripList l).filter notNbsp := by
  have hfront : ((stripList l).filter notNbsp).dropWhile isPyWS =
      (stripList l).filter notNbsp := by
    apply dropWhile_eq_self_of_head
    intro a ha
    exact head?_filter_false (stripList l) a (head?_stripList_false l) ha
  have hback : ((stripList l).filter notNbsp).reverse.dropWhile isPyWS =
      ((stripList l).filter notNbsp).reverse := by
    rw [← List.filter_reverse]
    apply dropWhile_eq_self_of_head
    intro a ha
    exact head?_filter_false (stripList l).reverse a (head?_stripList_reverse_false l) ha
  rw [show stripList ((stripList l).filter notNbsp) =
      ((((stripList l).filter notNbsp).dropWhile isPyWS).reverse.dropWhile isPyWS).reverse
    from rfl]
  rw [hfront, hback, List.reverse_reverse]

/-- Lowering commutes with stripping. -/
theorem stripList_map_pyLowerChar (l : List Char) :
    stripList (l.map pyLowerChar) = (stripList l).map pyLowerChar := by
  have hpf : (isPyWS ∘ pyLowerChar) = isPyWS := funext isPyWS_pyLowerChar
  unfold stripList
  rw [List.dropWhile_map, hpf, ← List.map_reverse, List.dropWhile_map, hpf, ← List.map_reverse]

/-- Lowering commutes with the no-break-space filter. -/
theorem filter_map_pyLowerChar (l : List Char) :
    (l.map pyLowerChar).filter notNbsp = (l.filter notNbsp).map pyLowerChar := by
  have hqf : (notNbsp ∘ pyLowerChar) = notNbsp := funext notNbsp_pyLowerChar
  rw [List.filter_map, hqf]

/-- Lowering twice is lowering once. -/
theorem map_pyLowerChar_map (l : List Char) :
    (l.map pyLowerChar).map pyLowerChar = l.map pyLowerChar := by
  rw [List.map_map]
  exact List.map_congr_left fun a _ => pyLowerChar_idem a

/-- Filtering twice is filtering once. -/
theorem filter_notNbsp_filter (l : List Char) :
    (l.filter notNbsp).filter notNbsp = l.filter notNbsp := by
  rw [List.filter_filter]
  exact List.filter_congr fun a _ => Bool.and_self (notNbsp a)

/-- C9: the paste path's column-name normalization — stringify, strip,
lowercase, remove no-break spaces — is idempotent: normalizing an
already-normalized name yields the same name. -/
theorem c9_pasteColName_idempotent (s : String) :
    pasteColName (pasteColName s) = pasteColName s := by
  suffices h : ∀ x : List Char,
      ((stripList (((stripList x).map pyLowerChar).filter notNbsp)).map pyLowerChar).filter notNbsp
        = ((stripList x).map pyLowerChar).filter notNbsp by
    exact congrArg String.mk (h s.data)
  intro x
  have e1 : ((stripList x).map pyLowerChar).filter notNbsp =
      ((stripList x).filter notNbsp).map pyLowerChar := filter_map_pyLowerChar (stripList x)
  rw [e1]
  rw [stripList_map_pyLowerChar ((stripList x).filter notNbsp)]
  rw [map_pyLowerChar_map]
  rw [stripList_filter_stripList]
  rw [← filter_map_pyLowerChar]
  rw [filter_notNbsp_filter]

end MapStudio
